import Mathlib

/-!
Verification of the ephemeral-state protection engine of AuthBk:
the Redis-backed one-time-code manager (`RedisOTPService` in
`apps/authentication/services/otp_service.py`) and the password-reset
guard (`RedisPasswordResetService` in
`apps/authentication/services/password_reset_service.py`).

The cache is modelled per subject: every Redis key the services derive
for one subject (`otp:user:<id>`, `otp:lockout:user:<id>`,
`otp:resend:user:<id>`, `otp:failed_attempts:user:<id>`, and likewise
the `pwd_reset:*:<email>` keys) becomes one field of a state record.
A stored entry carries the absolute instant at which its TTL elapses;
reads go through `getEntry`, which hides entries whose TTL has passed,
exactly as a Redis read races TTL deletion.  Wall-clock time is a
`now : Nat` parameter in seconds; `timezone.now().isoformat()` writes
become `TimeVal.valid now`, and a stored timestamp text that
`datetime.fromisoformat` would reject becomes `TimeVal.malformed`.
The uniform-random code from `generate_otp` is passed in as an
explicit `code` argument.  Python methods that mutate the cache and
then raise (`create_otp_for_user`, `resend_otp`) return the error
value together with the post-mutation state.
-/

namespace AuthBk

/-- A stored timestamp text: either one `datetime.fromisoformat` parses,
abstracted to an instant in seconds, or a malformed text it rejects. -/
inductive TimeVal where
  | valid (t : Nat)
  | malformed
deriving DecidableEq, Repr

/-- A cache entry: the stored value plus the absolute instant at which the
per-key TTL elapses and the store deletes the key. -/
structure Entry (α : Type) where
  value : α
  expiresAt : Nat
deriving DecidableEq, Repr

/-- Read a key at time `now`: an entry whose TTL has elapsed is absent,
exactly as Redis deletes expired keys. -/
def getEntry {α : Type} (now : Nat) : Option (Entry α) → Option α
  | none => none
  | some e => if now < e.expiresAt then some e.value else none

/-- The OTP record stored at `otp:user:<id>` (the JSON blob written by
`create_otp_for_user`); `user_id` is implicit in the per-subject state. -/
structure OtpData where
  otp : String
  created_at : Option TimeVal
  is_used : Bool
  resend_count : Nat
  last_resend_at : Option TimeVal
  verified_at : Option Nat
deriving DecidableEq, Repr

/-- All cache keys `RedisOTPService` derives for one subject. -/
structure UserState where
  otpEntry : Option (Entry OtpData)
  lockoutEntry : Option (Entry TimeVal)
  resendEntry : Option (Entry TimeVal)
  failedEntry : Option (Entry Nat)
deriving DecidableEq, Repr

/-- The `OTP_SETTINGS` options read in `RedisOTPService.__init__`. -/
structure OtpConfig where
  expiry_minutes : Nat
  max_resend_count : Nat
  resend_cooldown : Nat
  lockout_duration : Nat
  otp_length : Nat
  max_failed_attempts : Nat
  failed_attempts_window : Nat
deriving DecidableEq, Repr

def lockedOutMessage (r : Nat) : String :=
  "User is temporarily locked out. Please wait " ++ toString r ++
    " minutes before trying again."

def notFoundMessage : String := "No valid OTP found. Please request a new one."

def alreadyUsedMessage : String := "OTP has already been used. Please request a new one."

def expiredMessage : String := "OTP has expired. Please request a new one."

def mismatchMessage : String := "Invalid OTP code. Please check and try again."

def successMessage : String := "OTP verified successfully"

def cooldownMessage (r : Nat) : String :=
  "Please wait " ++ toString r ++ " seconds before requesting another OTP."

def limitMessage (maxResend lockoutDuration : Nat) : String :=
  "Maximum resend limit (" ++ toString maxResend ++ ") reached. Please wait " ++
    toString lockoutDuration ++ " minutes before trying again."

def resendOkMessage (count maxResend : Nat) : String :=
  "OTP resent successfully. Attempt " ++ toString count ++ "/" ++ toString maxResend

def newOtpMessage : String := "New OTP sent successfully"

/-- `is_user_locked_out`: true exactly when the lockout key is present. -/
def is_user_locked_out (now : Nat) (s : UserState) : Bool :=
  (getEntry now s.lockoutEntry).isSome

/-- `get_lockout_remaining_time`: minutes left of the lockout, `0` when the
key is absent or its stored timestamp is unparsable.  `int(max(0, d - e/60))`
on a float is the floor of the nonnegative part, computed here over `Int`. -/
def get_lockout_remaining_time (cfg : OtpConfig) (now : Nat) (s : UserState) : Nat :=
  match getEntry now s.lockoutEntry with
  | none => 0
  | some .malformed => 0
  | some (.valid t) =>
      (Int.toNat (max 0 ((cfg.lockout_duration : Int) * 60 - ((now : Int) - (t : Int))))) / 60

/-- `get_resend_cooldown_remaining`: seconds left of the resend cooldown,
`0` when the tracker is absent or its timestamp is unparsable. -/
def get_resend_cooldown_remaining (cfg : OtpConfig) (now : Nat) (s : UserState) : Nat :=
  match getEntry now s.resendEntry with
  | none => 0
  | some .malformed => 0
  | some (.valid t) =>
      Int.toNat (max 0 ((cfg.resend_cooldown : Int) - ((now : Int) - (t : Int))))

/-- `is_otp_expired`: a missing or unparsable `created_at` counts as
expired; otherwise expired iff `now > created_at + expiry_minutes`. -/
def is_otp_expired (cfg : OtpConfig) (now : Nat) (d : OtpData) : Bool :=
  match d.created_at with
  | none => true
  | some .malformed => true
  | some (.valid t) => decide (now > t + cfg.expiry_minutes * 60)

/-- `_lockout_user`: write the lockout key, stamped `now`, with TTL
`lockout_duration` minutes. -/
def lockout_user (cfg : OtpConfig) (now : Nat) (s : UserState) : UserState :=
  { s with lockoutEntry := some ⟨.valid now, now + cfg.lockout_duration * 60⟩ }

/-- `track_failed_attempt`: read the counter (default 0), write back the
increment with the window TTL, and lock the subject out once the new
count reaches `max_failed_attempts`. -/
def track_failed_attempt (cfg : OtpConfig) (now : Nat) (s : UserState) : UserState :=
  let attempts := (getEntry now s.failedEntry).getD 0
  let new_attempts := attempts + 1
  let s1 : UserState :=
    { s with failedEntry := some ⟨new_attempts, now + cfg.failed_attempts_window * 60⟩ }
  if cfg.max_failed_attempts ≤ new_attempts then lockout_user cfg now s1 else s1

/-- `reset_failed_attempts`: delete the failed-attempts key. -/
def reset_failed_attempts (s : UserState) : UserState :=
  { s with failedEntry := none }

/-- `get_otp_for_user`: read the OTP record, absent when TTL-expired. -/
def get_otp_for_user (now : Nat) (s : UserState) : Option OtpData :=
  getEntry now s.otpEntry

/-- `_update_resend_tracking`: stamp the resend tracker `now` with the
cooldown as TTL (`resend_cooldown` is already in seconds). -/
def update_resend_tracking (cfg : OtpConfig) (now : Nat) (s : UserState) : UserState :=
  { s with resendEntry := some ⟨.valid now, now + cfg.resend_cooldown⟩ }

/-- `_cleanup_user_data`: delete the OTP, resend, lockout and
failed-attempts keys of the subject. -/
def cleanup_user_data (_s : UserState) : UserState :=
  { otpEntry := none, lockoutEntry := none, resendEntry := none, failedEntry := none }

/-- `force_cleanup_user`: the public wrapper around `_cleanup_user_data`. -/
def force_cleanup_user (s : UserState) : UserState :=
  cleanup_user_data s

/-- `create_otp_for_user`: raise when locked out, else store a fresh
record (`code` stands for the `generate_otp()` draw) with TTL
`expiry_minutes` and delete the resend tracker.  The Python method
raises `ValueError`; the error value is paired with the (unchanged)
state. -/
def create_otp_for_user (cfg : OtpConfig) (now : Nat) (code : String) (s : UserState) :
    Except String OtpData × UserState :=
  if is_user_locked_out now s then
    (.error (lockedOutMessage (get_lockout_remaining_time cfg now s)), s)
  else
    let d : OtpData :=
      { otp := code, created_at := some (.valid now), is_used := false,
        resend_count := 0, last_resend_at := none, verified_at := none }
    (.ok d,
      { s with otpEntry := some ⟨d, now + cfg.expiry_minutes * 60⟩, resendEntry := none })

/-- `verify_otp`: the check chain of lines 119-168 of `otp_service.py`,
returning the `(is_valid, message)` pair together with the state. -/
def verify_otp (cfg : OtpConfig) (now : Nat) (otp_code : String) (s : UserState) :
    (Bool × String) × UserState :=
  if is_user_locked_out now s then
    ((false, lockedOutMessage (get_lockout_remaining_time cfg now s)), s)
  else
    match get_otp_for_user now s with
    | none => ((false, notFoundMessage), s)
    | some otp_data =>
      if otp_data.is_used then
        ((false, alreadyUsedMessage), s)
      else if is_otp_expired cfg now otp_data then
        ((false, expiredMessage), cleanup_user_data s)
      else if otp_data.otp ≠ otp_code then
        ((false, mismatchMessage), track_failed_attempt cfg now s)
      else
        let d := { otp_data with is_used := true, verified_at := some now }
        let s1 : UserState :=
          { s with otpEntry := some ⟨d, now + cfg.expiry_minutes * 60⟩,
                   resendEntry := none, lockoutEntry := none }
        ((true, successMessage), reset_failed_attempts s1)

/-- `resend_otp`: lockout and cooldown gates, then the in-place resend of
an unexpired record (or the lockout on hitting `max_resend_count`), else
cleanup of a stale record and a fresh issuance.  `code` stands for the
`generate_otp()` draw; errors are paired with the post-mutation state
since `_lockout_user` runs before the raise. -/
def resend_otp (cfg : OtpConfig) (now : Nat) (code : String) (s : UserState) :
    Except String (OtpData × String) × UserState :=
  if is_user_locked_out now s then
    (.error (lockedOutMessage (get_lockout_remaining_time cfg now s)), s)
  else
    let cooldown_remaining := get_resend_cooldown_remaining cfg now s
    if 0 < cooldown_remaining then
      (.error (cooldownMessage cooldown_remaining), s)
    else
      match get_otp_for_user now s with
      | some existing_otp =>
        if is_otp_expired cfg now existing_otp then
          match create_otp_for_user cfg now code (cleanup_user_data s) with
          | (.ok d, s2) => (.ok (d, newOtpMessage), s2)
          | (.error e, s2) => (.error e, s2)
        else
          let current_resend_count := existing_otp.resend_count
          if cfg.max_resend_count ≤ current_resend_count then
            (.error (limitMessage cfg.max_resend_count cfg.lockout_duration),
              lockout_user cfg now s)
          else
            let d : OtpData :=
              { existing_otp with
                otp := code,
                resend_count := current_resend_count + 1,
                last_resend_at := some (.valid now),
                is_used := false }
            let s1 : UserState :=
              { s with otpEntry := some ⟨d, now + cfg.expiry_minutes * 60⟩ }
            (.ok (d, resendOkMessage d.resend_count cfg.max_resend_count),
              update_resend_tracking cfg now s1)
      | none =>
        match create_otp_for_user cfg now code s with
        | (.ok d, s2) => (.ok (d, newOtpMessage), s2)
        | (.error e, s2) => (.error e, s2)

/-- The `PASSWORD_RESET_SETTINGS` options read in
`RedisPasswordResetService.__init__`. -/
structure ResetConfig where
  max_reset_requests : Nat
  reset_attempt_limit : Nat
  lockout_duration : Nat
deriving DecidableEq, Repr

/-- All cache keys `RedisPasswordResetService` derives for one email. -/
structure ResetState where
  requestsEntry : Option (Entry Nat)
  attemptsEntry : Option (Entry Nat)
  lockoutEntry : Option (Entry TimeVal)
deriving DecidableEq, Repr

def emptyEmailError : String := "Email cannot be None or empty"

def resetLockedMessage (r : Nat) : String :=
  "Account temporarily locked. Please wait " ++ toString r ++
    " minutes before trying again."

def resetLockMessage (lockoutDuration : Nat) : String :=
  "Too many reset attempts. Account locked for " ++ toString lockoutDuration ++ " minutes."

def resetAllowedMessage : String := "Reset attempt allowed"

/-- `is_user_locked_out` of the reset guard: presence of the
`pwd_reset:lockout:<email>` key. -/
def reset_is_user_locked_out (now : Nat) (s : ResetState) : Bool :=
  (getEntry now s.lockoutEntry).isSome

/-- `get_lockout_remaining_time` of the reset guard. -/
def reset_get_lockout_remaining_time (cfg : ResetConfig) (now : Nat) (s : ResetState) : Nat :=
  match getEntry now s.lockoutEntry with
  | none => 0
  | some .malformed => 0
  | some (.valid t) =>
      (Int.toNat (max 0 ((cfg.lockout_duration : Int) * 60 - ((now : Int) - (t : Int))))) / 60

/-- `get_reset_attempt_count`: the attempt counter, defaulting to 0. -/
def get_reset_attempt_count (now : Nat) (s : ResetState) : Nat :=
  (getEntry now s.attemptsEntry).getD 0

/-- `_lockout_user` of the reset guard. -/
def reset_lockout_user (cfg : ResetConfig) (now : Nat) (s : ResetState) : ResetState :=
  { s with lockoutEntry := some ⟨.valid now, now + cfg.lockout_duration * 60⟩ }

/-- `can_attempt_reset`: deny while locked out; once the attempt counter
has reached the limit, lock out as a side effect of the check and deny;
else allow without touching the store.  An empty email raises
`ValueError` from the key derivation. -/
def can_attempt_reset (cfg : ResetConfig) (now : Nat) (email : String) (s : ResetState) :
    Except String ((Bool × String) × ResetState) :=
  if email = "" then .error emptyEmailError
  else if reset_is_user_locked_out now s then
    .ok ((false, resetLockedMessage (reset_get_lockout_remaining_time cfg now s)), s)
  else if cfg.reset_attempt_limit ≤ get_reset_attempt_count now s then
    .ok ((false, resetLockMessage cfg.lockout_duration), reset_lockout_user cfg now s)
  else
    .ok ((true, resetAllowedMessage), s)

/-- `clear_reset_tracking`: delete the request counter, attempt counter
and lockout keys of the email. -/
def clear_reset_tracking (email : String) (_s : ResetState) : Except String ResetState :=
  if email = "" then .error emptyEmailError
  else .ok { requestsEntry := none, attemptsEntry := none, lockoutEntry := none }

/-- The `verify(subject, submittedCode)` check chain as the spec words it
in section 4.1: lockout first, then record presence, then `isUsed`, then
explicit expiry (purging all subject keys), then equality — a match sets
`isUsed=true`, rewrites the record with the same TTL and clears the
resend, lockout and failed-attempt trackers; a mismatch increments the
failed-attempt counter with the window TTL refreshed, locking out the
subject once the counter reaches its threshold (checked immediately
after the increment, per the expiry rule paragraph of section 4.1). -/
def verifySpec (cfg : OtpConfig) (now : Nat) (submitted : String) (s : UserState) :
    (Bool × String) × UserState :=
  if is_user_locked_out now s then
    ((false, lockedOutMessage (get_lockout_remaining_time cfg now s)), s)
  else
    match get_otp_for_user now s with
    | none => ((false, notFoundMessage), s)
    | some r =>
      if r.is_used then
        ((false, alreadyUsedMessage), s)
      else if is_otp_expired cfg now r then
        ((false, expiredMessage),
          { otpEntry := none, lockoutEntry := none, resendEntry := none, failedEntry := none })
      else if r.otp = submitted then
        ((true, successMessage),
          { s with
            otpEntry := some ⟨{ r with is_used := true, verified_at := some now },
                              now + cfg.expiry_minutes * 60⟩,
            resendEntry := none,
            lockoutEntry := none,
            failedEntry := none })
      else
        let n := (getEntry now s.failedEntry).getD 0 + 1
        let s1 : UserState :=
          { s with failedEntry := some ⟨n, now + cfg.failed_attempts_window * 60⟩ }
        ((false, mismatchMessage),
          if n ≥ cfg.max_failed_attempts then
            { s1 with lockoutEntry := some ⟨.valid now, now + cfg.lockout_duration * 60⟩ }
          else s1)

/-! Concrete fixtures: the documented default configuration
(`EXPIRY_MINUTES=5`, `MAX_RESEND_COUNT=3`, `RESEND_COOLDOWN_SECONDS=60`,
`LOCKOUT_DURATION_MINUTES=20`, `OTP_LENGTH=6`, `MAX_FAILED_ATTEMPTS=5`,
`FAILED_ATTEMPTS_WINDOW_MINUTES=10`; reset guard 3/5/20) and a family of
small per-subject states used to instantiate the theorems. -/

def cfgFixture : OtpConfig := ⟨5, 3, 60, 20, 6, 5, 10⟩

def rcfgFixture : ResetConfig := ⟨3, 5, 20⟩

def otpFixture : OtpData :=
  { otp := "123456", created_at := some (.valid 100), is_used := false,
    resend_count := 0, last_resend_at := none, verified_at := none }

def baseFixture : UserState :=
  { otpEntry := some ⟨otpFixture, 400⟩, lockoutEntry := none,
    resendEntry := none, failedEntry := none }

def lockedFixture : UserState :=
  { baseFixture with lockoutEntry := some ⟨.valid 120, 1320⟩ }

def usedStateFixture : UserState :=
  { baseFixture with otpEntry := some ⟨{ otpFixture with is_used := true }, 400⟩ }

def maxedStateFixture : UserState :=
  { baseFixture with otpEntry := some ⟨{ otpFixture with resend_count := 3 }, 400⟩ }

def expiredOtpFixture : OtpData := { otpFixture with created_at := some (.valid 0) }

def expiredStateFixture : UserState :=
  { otpEntry := some ⟨expiredOtpFixture, 2000⟩, lockoutEntry := none,
    resendEntry := none, failedEntry := some ⟨3, 2000⟩ }

def missingCreatedOtpFixture : OtpData := { otpFixture with created_at := none }

def missingCreatedState : UserState :=
  { otpEntry := some ⟨missingCreatedOtpFixture, 2000⟩, lockoutEntry := none,
    resendEntry := none, failedEntry := none }

def malformedLockState : UserState :=
  { otpEntry := none, lockoutEntry := some ⟨.malformed, 1000⟩,
    resendEntry := none, failedEntry := none }

def resetFreshFixture : ResetState := ⟨none, none, none⟩

def resetLockedFixture : ResetState :=
  { resetFreshFixture with lockoutEntry := some ⟨.valid 100, 1300⟩ }

def resetAtLimitFixture : ResetState :=
  { resetFreshFixture with attemptsEntry := some ⟨5, 3700⟩ }

def failedProgressFixture : UserState :=
  { baseFixture with failedEntry := some ⟨2, 750⟩ }

/-- One wrong-code verification step at the default configuration, used
by the five-consecutive-failures scenario of the spec. -/
def wrongStep (s : UserState) : UserState :=
  (verify_otp cfgFixture 150 "000000" s).2

/-- C2: for every subject and submitted code, `verify_otp` returns
exactly what the spec's fixed check order prescribes — lockout, then
record presence, then `isUsed`, then explicit expiry (with full purge),
then code equality (mismatch incrementing the windowed failed-attempt
counter, match marking the code used, rewriting the record with the
same TTL and clearing the resend, lockout and failed-attempt
trackers). -/
theorem verify_otp_matches_spec (cfg : OtpConfig) (now : Nat) (code : String)
    (s : UserState) : verify_otp cfg now code s = verifySpec cfg now code s := by
  unfold verify_otp verifySpec
  cases hL : is_user_locked_out now s
  · cases hO : get_otp_for_user now s
    · rfl
    · rename_i d
      cases hU : d.is_used
      · cases hE : is_otp_expired cfg now d
        · by_cases hC : d.otp = code
          · simp [hU, hE, hC, reset_failed_attempts, cleanup_user_data]
          · simp [hU, hE, hC, track_failed_attempt, lockout_user, ge_iff_le]
        · simp [hU, hE, cleanup_user_data]
      · simp [hU]
  · rfl

/-- C1 counterexample: `clear_reset_tracking` — a public operation of the
Reset-Attempt Guard — and `force_cleanup_user` — a public operation of
the One-Time-Code Manager — both delete a live lockout record, so the
claim that no operation of the Manager or Guard ever deletes a lockout
record (lockout clearing only by store TTL expiry) is false. -/
theorem clear_reset_tracking_deletes_live_lockout :
    reset_is_user_locked_out 150 resetLockedFixture = true ∧
    clear_reset_tracking "user@example.com" resetLockedFixture =
      Except.ok { requestsEntry := none, attemptsEntry := none, lockoutEntry := none } ∧
    is_user_locked_out 150 lockedFixture = true ∧
    (force_cleanup_user lockedFixture).lockoutEntry = none :=
  ⟨rfl, rfl, rfl, rfl⟩

/-- C1 (amended): while a live lockout record is present, `verify_otp`
returns the locked-out failure, `create_otp_for_user` and `resend_otp`
fail with the locked-out error and `can_attempt_reset` denies with the
locked message — each regardless of all other stored state and leaving
the store unchanged, so no guarded operation removes the lockout; the
explicit cleanup operations `force_cleanup_user` and
`clear_reset_tracking`, however, do delete lockout records, so TTL
expiry is not the only clearing path. -/
theorem locked_out_blocks_all_guarded_operations
    (cfg : OtpConfig) (rcfg : ResetConfig) (now : Nat) (code email : String)
    (s : UserState) (rs : ResetState)
    (hs : is_user_locked_out now s = true)
    (hrs : reset_is_user_locked_out now rs = true)
    (he : email ≠ "") :
    verify_otp cfg now code s =
      ((false, lockedOutMessage (get_lockout_remaining_time cfg now s)), s) ∧
    create_otp_for_user cfg now code s =
      (Except.error (lockedOutMessage (get_lockout_remaining_time cfg now s)), s) ∧
    resend_otp cfg now code s =
      (Except.error (lockedOutMessage (get_lockout_remaining_time cfg now s)), s) ∧
    can_attempt_reset rcfg now email rs =
      Except.ok ((false, resetLockedMessage (reset_get_lockout_remaining_time rcfg now rs)), rs) := by
  refine ⟨?_, ?_, ?_, ?_⟩
  · simp [verify_otp, hs]
  · simp [create_otp_for_user, hs]
  · simp [resend_otp, hs]
  · simp [can_attempt_reset, he, hrs]

/-- C1 witness: the amended theorem applied to a locked subject and a
locked email at the default configuration. -/
theorem locked_out_blocks_all_guarded_operations_witness :
    verify_otp cfgFixture 150 "000000" lockedFixture =
      ((false, lockedOutMessage (get_lockout_remaining_time cfgFixture 150 lockedFixture)),
        lockedFixture) ∧
    create_otp_for_user cfgFixture 150 "000000" lockedFixture =
      (Except.error (lockedOutMessage (get_lockout_remaining_time cfgFixture 150 lockedFixture)),
        lockedFixture) ∧
    resend_otp cfgFixture 150 "000000" lockedFixture =
      (Except.error (lockedOutMessage (get_lockout_remaining_time cfgFixture 150 lockedFixture)),
        lockedFixture) ∧
    can_attempt_reset rcfgFixture 150 "user@example.com" resetLockedFixture =
      Except.ok
        ((false, resetLockedMessage (reset_get_lockout_remaining_time rcfgFixture 150 resetLockedFixture)),
          resetLockedFixture) :=
  locked_out_blocks_all_guarded_operations cfgFixture rcfgFixture 150 "000000" "user@example.com"
    lockedFixture resetLockedFixture (by decide) (by decide) (by decide)

/-- C3: each wrong-code `verify_otp` call writes back the failed-attempt
counter incremented by exactly one under the refreshed window TTL, and
that same call locks the subject out exactly when the incremented count
reaches `max_failed_attempts`; concretely, at the default configuration
(`MAX_FAILED_ATTEMPTS=5`) five consecutive wrong-code verifies leave the
subject locked out immediately after the fifth call. -/
theorem wrong_code_increments_and_locks_at_threshold
    (cfg : OtpConfig) (now : Nat) (code : String) (s : UserState) (d : OtpData)
    (hdur : 0 < cfg.lockout_duration)
    (hL : is_user_locked_out now s = false)
    (hO : get_otp_for_user now s = some d)
    (hU : d.is_used = false)
    (hE : is_otp_expired cfg now d = false)
    (hC : d.otp ≠ code) :
    ((verify_otp cfg now code s).2.failedEntry =
      some ⟨(getEntry now s.failedEntry).getD 0 + 1, now + cfg.failed_attempts_window * 60⟩ ∧
     is_user_locked_out now (verify_otp cfg now code s).2 =
       decide (cfg.max_failed_attempts ≤ (getEntry now s.failedEntry).getD 0 + 1)) ∧
    is_user_locked_out 150
      (wrongStep (wrongStep (wrongStep (wrongStep (wrongStep baseFixture))))) = true := by
  have hL' : (getEntry now s.lockoutEntry).isSome = false := hL
  have hlt : now < now + cfg.lockout_duration * 60 := by omega
  have h1 : verify_otp cfg now code s =
      ((false, mismatchMessage), track_failed_attempt cfg now s) := by
    simp [verify_otp, hL, hO, hU, hE, hC]
  refine ⟨⟨?_, ?_⟩, by decide⟩
  · rw [h1]
    by_cases hm : cfg.max_failed_attempts ≤ (getEntry now s.failedEntry).getD 0 + 1 <;>
      simp [track_failed_attempt, lockout_user, hm]
  · rw [h1]
    by_cases hm : cfg.max_failed_attempts ≤ (getEntry now s.failedEntry).getD 0 + 1
    · rw [decide_eq_true hm]
      have h2 : track_failed_attempt cfg now s =
          lockout_user cfg now
            { s with failedEntry := some ⟨(getEntry now s.failedEntry).getD 0 + 1,
                now + cfg.failed_attempts_window * 60⟩ } := by
        simp [track_failed_attempt, hm]
      rw [h2]
      simp [lockout_user, is_user_locked_out, getEntry, hlt]
    · rw [decide_eq_false hm]
      have h2 : track_failed_attempt cfg now s =
          { s with failedEntry := some ⟨(getEntry now s.failedEntry).getD 0 + 1,
              now + cfg.failed_attempts_window * 60⟩ } := by
        simp [track_failed_attempt, hm]
      rw [h2]
      simpa [is_user_locked_out] using hL'

/-- C3 witness: the first wrong-code verify at the default configuration
takes the counter from 0 to 1 and does not lock out yet. -/
theorem wrong_code_increments_witness :
    ((verify_otp cfgFixture 150 "000000" baseFixture).2.failedEntry =
      some ⟨(getEntry 150 baseFixture.failedEntry).getD 0 + 1,
        150 + cfgFixture.failed_attempts_window * 60⟩ ∧
     is_user_locked_out 150 (verify_otp cfgFixture 150 "000000" baseFixture).2 =
       decide (cfgFixture.max_failed_attempts ≤ (getEntry 150 baseFixture.failedEntry).getD 0 + 1)) ∧
    is_user_locked_out 150
      (wrongStep (wrongStep (wrongStep (wrongStep (wrongStep baseFixture))))) = true :=
  wrong_code_increments_and_locks_at_threshold cfgFixture 150 "000000" baseFixture otpFixture
    (by decide) (by decide) (by decide) (by decide) (by decide) (by decide)

/-- C4 counterexample: with a live failed-attempt counter at 3 and a
record whose `created_at` lies past the expiry window, `verify_otp`
triggered by that expiry purges all subject keys and in particular
removes the failed-attempt counter, so expiry does reset failed-attempt
progress. -/
theorem expiry_cleanup_removes_failed_counter :
    (getEntry 1000 expiredStateFixture.failedEntry).getD 0 = 3 ∧
    verify_otp cfgFixture 1000 "123456" expiredStateFixture =
      ((false, expiredMessage), cleanup_user_data expiredStateFixture) ∧
    (verify_otp cfgFixture 1000 "123456" expiredStateFixture).2.failedEntry = none :=
  ⟨rfl, rfl, rfl⟩

/-- C4 (amended): the failed-attempt counter survives every operation
except the expiry purge and the successful-verification reset: when
`verify_otp` or `resend_otp` observes an expired record, the expiry
cleanup deletes all of the subject's keys, the failed-attempt counter
included, so counter progress toward lockout does not persist across
code expiry. -/
theorem expired_record_purge_drops_failed_counter
    (cfg : OtpConfig) (now : Nat) (code : String) (s : UserState) (d : OtpData)
    (hL : is_user_locked_out now s = false)
    (hCd : get_resend_cooldown_remaining cfg now s = 0)
    (hO : get_otp_for_user now s = some d)
    (hU : d.is_used = false)
    (hE : is_otp_expired cfg now d = true) :
    verify_otp cfg now code s = ((false, expiredMessage), cleanup_user_data s) ∧
    (verify_otp cfg now code s).2.failedEntry = none ∧
    (resend_otp cfg now code s).2.failedEntry = none := by
  have h1 : verify_otp cfg now code s = ((false, expiredMessage), cleanup_user_data s) := by
    simp [verify_otp, hL, hO, hU, hE]
  refine ⟨h1, by simp [h1, cleanup_user_data], ?_⟩
  have hclean : cleanup_user_data s = ⟨none, none, none, none⟩ := rfl
  have hcr : create_otp_for_user cfg now code ⟨none, none, none, none⟩ = (Except.ok { otp := code, created_at := some (.valid now), is_used := false, resend_count := 0, last_resend_at := none, verified_at := none }, { otpEntry := some ⟨{ otp := code, created_at := some (.valid now), is_used := false, resend_count := 0, last_resend_at := none, verified_at := none }, now + cfg.expiry_minutes * 60⟩, lockoutEntry := none, resendEntry := none, failedEntry := none }) := rfl
  simp [resend_otp, hL, hCd, hO, hE, hclean, hcr]

/-- Branch outcome of `verify_otp` on a match, stated from the observable
checks; shared helper. -/
theorem verify_otp_success_case (cfg : OtpConfig) (now : Nat) (code : String)
    (s : UserState) (d : OtpData)
    (hL : is_user_locked_out now s = false)
    (hO : get_otp_for_user now s = some d)
    (hU : d.is_used = false)
    (hE : is_otp_expired cfg now d = false)
    (hC : d.otp = code) :
    verify_otp cfg now code s =
      ((true, successMessage),
        ⟨some ⟨{ d with is_used := true, verified_at := some now },
          now + cfg.expiry_minutes * 60⟩, none, none, none⟩) := by
  simp [verify_otp, hL, hO, hU, hE, hC, reset_failed_attempts]

/-- Branch outcome of `verify_otp` on an already-used record; shared
helper. -/
theorem verify_otp_used_case (cfg : OtpConfig) (now : Nat) (code : String)
    (s : UserState) (d : OtpData)
    (hL : is_user_locked_out now s = false)
    (hO : get_otp_for_user now s = some d)
    (hU : d.is_used = true) :
    verify_otp cfg now code s = ((false, alreadyUsedMessage), s) := by
  simp [verify_otp, hL, hO, hU]

/-- Branch outcome of `verify_otp` on a code mismatch; shared helper. -/
theorem verify_otp_mismatch_case (cfg : OtpConfig) (now : Nat) (code : String)
    (s : UserState) (d : OtpData)
    (hL : is_user_locked_out now s = false)
    (hO : get_otp_for_user now s = some d)
    (hU : d.is_used = false)
    (hE : is_otp_expired cfg now d = false)
    (hC : d.otp ≠ code) :
    verify_otp cfg now code s = ((false, mismatchMessage), track_failed_attempt cfg now s) := by
  simp [verify_otp, hL, hO, hU, hE, hC]

/-- Outcome of an in-window, under-limit `resend_otp`; shared helper. -/
theorem resend_otp_increment_case (cfg : OtpConfig) (now : Nat) (code : String)
    (s : UserState) (d : OtpData)
    (hL : is_user_locked_out now s = false)
    (hCd : get_resend_cooldown_remaining cfg now s = 0)
    (hO : get_otp_for_user now s = some d)
    (hE : is_otp_expired cfg now d = false)
    (hR : d.resend_count < cfg.max_resend_count) :
    resend_otp cfg now code s = (Except.ok ({ d with otp := code, resend_count := d.resend_count + 1, last_resend_at := some (.valid now), is_used := false }, resendOkMessage (d.resend_count + 1) cfg.max_resend_count), update_resend_tracking cfg now { s with otpEntry := some ⟨{ d with otp := code, resend_count := d.resend_count + 1, last_resend_at := some (.valid now), is_used := false }, now + cfg.expiry_minutes * 60⟩ }) := by
  simp [resend_otp, hL, hCd, hO, hE, Nat.not_le.mpr hR]

/-- C4 witness: the amended theorem applied to the expired record with a
counter at 3. -/
theorem expired_record_purge_witness :
    verify_otp cfgFixture 1000 "999999" expiredStateFixture =
      ((false, expiredMessage), cleanup_user_data expiredStateFixture) ∧
    (verify_otp cfgFixture 1000 "999999" expiredStateFixture).2.failedEntry = none ∧
    (resend_otp cfgFixture 1000 "999999" expiredStateFixture).2.failedEntry = none :=
  expired_record_purge_drops_failed_counter cfgFixture 1000 "999999" expiredStateFixture
    expiredOtpFixture (by decide) (by decide) (by decide) (by decide) (by decide)

/-- C5: for a subject not locked out, past the cooldown, with a present
and unexpired record: below the configured maximum, `resend_otp`
increments `resend_count` by exactly one, storing the fresh code value
with `is_used` reset to false; at or past the maximum it writes a
lockout record stamped with the current time and fails with the
limit-reached error carrying the configured maximum. -/
theorem resend_increments_or_locks_at_limit
    (cfg : OtpConfig) (now : Nat) (code : String) (s : UserState) (d : OtpData)
    (hL : is_user_locked_out now s = false)
    (hCd : get_resend_cooldown_remaining cfg now s = 0)
    (hO : get_otp_for_user now s = some d)
    (hE : is_otp_expired cfg now d = false) :
    (d.resend_count < cfg.max_resend_count →
      resend_otp cfg now code s = (Except.ok ({ d with otp := code, resend_count := d.resend_count + 1, last_resend_at := some (.valid now), is_used := false }, resendOkMessage (d.resend_count + 1) cfg.max_resend_count), update_resend_tracking cfg now { s with otpEntry := some ⟨{ d with otp := code, resend_count := d.resend_count + 1, last_resend_at := some (.valid now), is_used := false }, now + cfg.expiry_minutes * 60⟩ })) ∧
    (cfg.max_resend_count ≤ d.resend_count →
      resend_otp cfg now code s = (Except.error (limitMessage cfg.max_resend_count cfg.lockout_duration), lockout_user cfg now s) ∧
      (lockout_user cfg now s).lockoutEntry = some ⟨.valid now, now + cfg.lockout_duration * 60⟩) := by
  constructor
  · intro hR
    exact resend_otp_increment_case cfg now code s d hL hCd hO hE hR
  · intro hge
    refine ⟨?_, rfl⟩
    simp [resend_otp, hL, hCd, hO, hE, hge]

/-- C5 witness: the theorem applied once below the limit (count 0 at
maximum 3) and once at the limit (count 3). -/
theorem resend_limit_witness :
    resend_otp cfgFixture 150 "654321" baseFixture = (Except.ok ({ otpFixture with otp := "654321", resend_count := otpFixture.resend_count + 1, last_resend_at := some (.valid 150), is_used := false }, resendOkMessage (otpFixture.resend_count + 1) cfgFixture.max_resend_count), update_resend_tracking cfgFixture 150 { baseFixture with otpEntry := some ⟨{ otpFixture with otp := "654321", resend_count := otpFixture.resend_count + 1, last_resend_at := some (.valid 150), is_used := false }, 150 + cfgFixture.expiry_minutes * 60⟩ }) ∧
    (resend_otp cfgFixture 150 "654321" maxedStateFixture = (Except.error (limitMessage cfgFixture.max_resend_count cfgFixture.lockout_duration), lockout_user cfgFixture 150 maxedStateFixture) ∧
      (lockout_user cfgFixture 150 maxedStateFixture).lockoutEntry = some ⟨.valid 150, 150 + cfgFixture.lockout_duration * 60⟩) := by
  constructor
  · exact (resend_increments_or_locks_at_limit cfgFixture 150 "654321" baseFixture otpFixture
      (by decide) (by decide) (by decide) (by decide)).1 (by decide)
  · exact (resend_increments_or_locks_at_limit cfgFixture 150 "654321" maxedStateFixture
      { otpFixture with resend_count := 3 } (by decide) (by decide) (by decide) (by decide)).2
      (by decide)

/-- C6: a record marked used never validates again within its remaining
TTL window: with the stored record present and `is_used = true`,
`verify_otp` never succeeds with any submitted code, and — whenever the
lockout gate (which also fails) does not fire first — it returns the
already-used error with the store untouched; moreover a second verify
of the very code value that just succeeded returns the already-used
error and leaves the state unchanged. -/
theorem used_code_never_validates_again
    (cfg : OtpConfig) (now : Nat) (code : String) (s : UserState) (d : OtpData)
    (hO : get_otp_for_user now s = some d) :
    (d.is_used = true → (verify_otp cfg now code s).1.1 = false) ∧
    (d.is_used = true → is_user_locked_out now s = false →
      verify_otp cfg now code s = ((false, alreadyUsedMessage), s)) ∧
    (0 < cfg.expiry_minutes → (verify_otp cfg now code s).1.1 = true →
      verify_otp cfg now code (verify_otp cfg now code s).2 =
        ((false, alreadyUsedMessage), (verify_otp cfg now code s).2)) := by
  refine ⟨?_, ?_, ?_⟩
  · intro hU
    by_cases hL : is_user_locked_out now s = true
    · simp [verify_otp, hL]
    · have hL' : is_user_locked_out now s = false := by simpa using hL
      rw [verify_otp_used_case cfg now code s d hL' hO hU]
  · intro hU hL
    exact verify_otp_used_case cfg now code s d hL hO hU
  · intro hexp hsucc
    have hlt : now < now + cfg.expiry_minutes * 60 := by omega
    by_cases hL : is_user_locked_out now s = true
    · simp [verify_otp, hL] at hsucc
    · have hL' : is_user_locked_out now s = false := by simpa using hL
      cases hU : d.is_used
      · cases hE : is_otp_expired cfg now d
        · by_cases hC : d.otp = code
          · rw [verify_otp_success_case cfg now code s d hL' hO hU hE hC]
            exact verify_otp_used_case cfg now code _
              { d with is_used := true, verified_at := some now } rfl
              (by simp [get_otp_for_user, getEntry, hlt]) rfl
          · rw [verify_otp_mismatch_case cfg now code s d hL' hO hU hE hC] at hsucc
            simp at hsucc
        · simp [verify_otp, hL', hO, hU, hE] at hsucc
      · rw [verify_otp_used_case cfg now code s d hL' hO hU] at hsucc
        simp at hsucc

/-- C6 witness: the theorem applied to a used record (never succeeds,
already-used error) and to a fresh success followed by a replayed
verify of the same value. -/
theorem used_code_witness :
    (verify_otp cfgFixture 150 "123456" usedStateFixture).1.1 = false ∧
    verify_otp cfgFixture 150 "123456" usedStateFixture =
      ((false, alreadyUsedMessage), usedStateFixture) ∧
    verify_otp cfgFixture 150 "123456" (verify_otp cfgFixture 150 "123456" baseFixture).2 =
      ((false, alreadyUsedMessage), (verify_otp cfgFixture 150 "123456" baseFixture).2) := by
  refine ⟨?_, ?_, ?_⟩
  · exact (used_code_never_validates_again cfgFixture 150 "123456" usedStateFixture
      { otpFixture with is_used := true } (by decide)).1 (by decide)
  · exact (used_code_never_validates_again cfgFixture 150 "123456" usedStateFixture
      { otpFixture with is_used := true } (by decide)).2.1 (by decide) (by decide)
  · exact (used_code_never_validates_again cfgFixture 150 "123456" baseFixture
      otpFixture (by decide)).2.2 (by decide) (by decide)

/-- C7: after a successful in-window resend returning the fresh code,
an immediate verify with the fresh code succeeds while a verify with
the pre-resend code value fails as a mismatch: at most one code value
is valid per subject at any time. -/
theorem resend_then_verify_round_trip
    (cfg : OtpConfig) (now : Nat) (code : String) (s : UserState) (d : OtpData)
    (hexp : 0 < cfg.expiry_minutes)
    (hL : is_user_locked_out now s = false)
    (hCd : get_resend_cooldown_remaining cfg now s = 0)
    (hO : get_otp_for_user now s = some d)
    (hE : is_otp_expired cfg now d = false)
    (hR : d.resend_count < cfg.max_resend_count)
    (hNe : code ≠ d.otp) :
    (resend_otp cfg now code s).1 = Except.ok ({ d with otp := code, resend_count := d.resend_count + 1, last_resend_at := some (.valid now), is_used := false }, resendOkMessage (d.resend_count + 1) cfg.max_resend_count) ∧
    (verify_otp cfg now code (resend_otp cfg now code s).2).1 = (true, successMessage) ∧
    (verify_otp cfg now d.otp (resend_otp cfg now code s).2).1 = (false, mismatchMessage) := by
  have hres := resend_otp_increment_case cfg now code s d hL hCd hO hE hR
  have hlt : now < now + cfg.expiry_minutes * 60 := by omega
  rw [hres]
  have hL2 : is_user_locked_out now (update_resend_tracking cfg now { s with otpEntry := some ⟨{ d with otp := code, resend_count := d.resend_count + 1, last_resend_at := some (.valid now), is_used := false }, now + cfg.expiry_minutes * 60⟩ }) = false := hL
  have hO2 : get_otp_for_user now (update_resend_tracking cfg now { s with otpEntry := some ⟨{ d with otp := code, resend_count := d.resend_count + 1, last_resend_at := some (.valid now), is_used := false }, now + cfg.expiry_minutes * 60⟩ }) = some { d with otp := code, resend_count := d.resend_count + 1, last_resend_at := some (.valid now), is_used := false } := by
    simp [get_otp_for_user, update_resend_tracking, getEntry, hlt]
  refine ⟨rfl, ?_, ?_⟩
  · rw [verify_otp_success_case cfg now code _ _ hL2 hO2 rfl hE rfl]
  · rw [verify_otp_mismatch_case cfg now d.otp _ _ hL2 hO2 rfl hE ?_]
    intro hcontra
    exact hNe hcontra

/-- C7 witness: the round trip at the default configuration with fresh
code 654321 over stored code 123456. -/
theorem resend_round_trip_witness :
    (resend_otp cfgFixture 150 "654321" baseFixture).1 = Except.ok ({ otpFixture with otp := "654321", resend_count := otpFixture.resend_count + 1, last_resend_at := some (.valid 150), is_used := false }, resendOkMessage (otpFixture.resend_count + 1) cfgFixture.max_resend_count) ∧
    (verify_otp cfgFixture 150 "654321" (resend_otp cfgFixture 150 "654321" baseFixture).2).1 =
      (true, successMessage) ∧
    (verify_otp cfgFixture 150 otpFixture.otp (resend_otp cfgFixture 150 "654321" baseFixture).2).1 =
      (false, mismatchMessage) :=
  resend_then_verify_round_trip cfgFixture 150 "654321" baseFixture otpFixture
    (by decide) (by decide) (by decide) (by decide) (by decide) (by decide) (by decide)

/-- C8: for a non-empty email, `can_attempt_reset` denies with the
locked message while the lockout record is live (store untouched); once
the attempt counter has reached the limit, that very call writes the
lockout record stamped with the current time and denies; otherwise it
allows and mutates no store state. -/
theorem can_attempt_reset_gate
    (cfg : ResetConfig) (now : Nat) (email : String) (s : ResetState)
    (he : email ≠ "") :
    (reset_is_user_locked_out now s = true →
      can_attempt_reset cfg now email s =
        Except.ok ((false, resetLockedMessage (reset_get_lockout_remaining_time cfg now s)), s)) ∧
    (reset_is_user_locked_out now s = false →
      cfg.reset_attempt_limit ≤ get_reset_attempt_count now s →
      can_attempt_reset cfg now email s =
        Except.ok ((false, resetLockMessage cfg.lockout_duration), reset_lockout_user cfg now s) ∧
      (reset_lockout_user cfg now s).lockoutEntry =
        some ⟨.valid now, now + cfg.lockout_duration * 60⟩) ∧
    (reset_is_user_locked_out now s = false →
      get_reset_attempt_count now s < cfg.reset_attempt_limit →
      can_attempt_reset cfg now email s = Except.ok ((true, resetAllowedMessage), s)) := by
  refine ⟨?_, ?_, ?_⟩
  · intro hlk
    simp [can_attempt_reset, he, hlk]
  · intro hlk hge
    exact ⟨by simp [can_attempt_reset, he, hlk, hge], rfl⟩
  · intro hlk hlt
    simp [can_attempt_reset, he, hlk, Nat.not_le.mpr hlt]

/-- C8 witness: the gate applied to a locked email, an email at the
attempt limit, and a fresh email. -/
theorem can_attempt_reset_gate_witness :
    can_attempt_reset rcfgFixture 150 "locked@example.com" resetLockedFixture =
      Except.ok ((false, resetLockedMessage
        (reset_get_lockout_remaining_time rcfgFixture 150 resetLockedFixture)),
        resetLockedFixture) ∧
    (can_attempt_reset rcfgFixture 150 "limit@example.com" resetAtLimitFixture =
      Except.ok ((false, resetLockMessage rcfgFixture.lockout_duration),
        reset_lockout_user rcfgFixture 150 resetAtLimitFixture) ∧
      (reset_lockout_user rcfgFixture 150 resetAtLimitFixture).lockoutEntry =
        some ⟨.valid 150, 150 + rcfgFixture.lockout_duration * 60⟩) ∧
    can_attempt_reset rcfgFixture 150 "fresh@example.com" resetFreshFixture =
      Except.ok ((true, resetAllowedMessage), resetFreshFixture) := by
  refine ⟨?_, ?_, ?_⟩
  · exact (can_attempt_reset_gate rcfgFixture 150 "locked@example.com" resetLockedFixture
      (by decide)).1 (by decide)
  · exact (can_attempt_reset_gate rcfgFixture 150 "limit@example.com" resetAtLimitFixture
      (by decide)).2.1 (by decide) (by decide)
  · exact (can_attempt_reset_gate rcfgFixture 150 "fresh@example.com" resetFreshFixture
      (by decide)).2.2 (by decide) (by decide)

/-- C9 counterexample: a live lockout record whose stored timestamp is
unparsable still counts as locked out — `is_user_locked_out` only
checks key presence — so `verify_otp` fails with the locked-out message
(reporting 0 remaining minutes) rather than treating the subject as not
locked out. -/
theorem malformed_lockout_timestamp_still_blocks :
    is_user_locked_out 0 malformedLockState = true ∧
    get_lockout_remaining_time cfgFixture 0 malformedLockState = 0 ∧
    verify_otp cfgFixture 0 "123456" malformedLockState =
      ((false, lockedOutMessage 0), malformedLockState) :=
  ⟨rfl, rfl, rfl⟩

/-- C9 (amended): a missing or unparsable `created_at` makes the stored
record expired, so `verify_otp` returns the expired outcome (purging
the subject keys) and `resend_otp` re-issues a fresh code; an
unparsable lockout timestamp reports 0 remaining minutes, but the
subject is still treated as locked out while the record persists,
because the lockout check is presence-based and never parses the stored
value; counter reads themselves never parse stored text (default on
miss), so a malformed counter value is not silently substituted. -/
theorem malformed_timestamps_fail_toward_reissue
    (cfg : OtpConfig) (now : Nat) (code : String) (s s2 : UserState) (d : OtpData)
    (hca : d.created_at = none ∨ d.created_at = some TimeVal.malformed)
    (hml : getEntry now s.lockoutEntry = some TimeVal.malformed)
    (hL2 : is_user_locked_out now s2 = false)
    (hCd2 : get_resend_cooldown_remaining cfg now s2 = 0)
    (hO2 : get_otp_for_user now s2 = some d)
    (hU2 : d.is_used = false) :
    is_otp_expired cfg now d = true ∧
    verify_otp cfg now code s2 = ((false, expiredMessage), cleanup_user_data s2) ∧
    (resend_otp cfg now code s2).1 = Except.ok ({ otp := code, created_at := some (.valid now), is_used := false, resend_count := 0, last_resend_at := none, verified_at := none }, newOtpMessage) ∧
    is_user_locked_out now s = true ∧
    get_lockout_remaining_time cfg now s = 0 := by
  have hE : is_otp_expired cfg now d = true := by
    rcases hca with h | h <;> simp [is_otp_expired, h]
  refine ⟨hE, ?_, ?_, ?_, ?_⟩
  · simp [verify_otp, hL2, hO2, hU2, hE]
  · have hclean : cleanup_user_data s2 = ⟨none, none, none, none⟩ := rfl
    have hcr : create_otp_for_user cfg now code ⟨none, none, none, none⟩ = (Except.ok { otp := code, created_at := some (.valid now), is_used := false, resend_count := 0, last_resend_at := none, verified_at := none }, { otpEntry := some ⟨{ otp := code, created_at := some (.valid now), is_used := false, resend_count := 0, last_resend_at := none, verified_at := none }, now + cfg.expiry_minutes * 60⟩, lockoutEntry := none, resendEntry := none, failedEntry := none }) := rfl
    simp [resend_otp, hL2, hCd2, hO2, hE, hclean, hcr]
  · simp [is_user_locked_out, hml]
  · simp [get_lockout_remaining_time, hml]

/-- C9 witness: the amended theorem applied to a record with a missing
`created_at` and a lockout entry holding an unparsable timestamp. -/
theorem malformed_timestamps_witness :
    is_otp_expired cfgFixture 150 missingCreatedOtpFixture = true ∧
    verify_otp cfgFixture 150 "777777" missingCreatedState =
      ((false, expiredMessage), cleanup_user_data missingCreatedState) ∧
    (resend_otp cfgFixture 150 "777777" missingCreatedState).1 = Except.ok ({ otp := "777777", created_at := some (.valid 150), is_used := false, resend_count := 0, last_resend_at := none, verified_at := none }, newOtpMessage) ∧
    is_user_locked_out 150 malformedLockState = true ∧
    get_lockout_remaining_time cfgFixture 150 malformedLockState = 0 :=
  malformed_timestamps_fail_toward_reissue cfgFixture 150 "777777" malformedLockState
    missingCreatedState missingCreatedOtpFixture (by decide) (by decide) (by decide)
    (by decide) (by decide) (by decide)

/-- C10: for a subject not locked out, `create_otp_for_user` stores a
fresh record (`resend_count = 0`, `is_used = false`, stamped with the
current time) under the expiry TTL and deletes only the resend tracker,
leaving the failed-attempt counter and the lockout key untouched, so
failed-attempt progress toward lockout persists across a fresh
issuance. -/
theorem create_otp_frame
    (cfg : OtpConfig) (now : Nat) (code : String) (s : UserState)
    (hL : is_user_locked_out now s = false) :
    create_otp_for_user cfg now code s = (Except.ok { otp := code, created_at := some (.valid now), is_used := false, resend_count := 0, last_resend_at := none, verified_at := none }, { s with otpEntry := some ⟨{ otp := code, created_at := some (.valid now), is_used := false, resend_count := 0, last_resend_at := none, verified_at := none }, now + cfg.expiry_minutes * 60⟩, resendEntry := none }) ∧
    (create_otp_for_user cfg now code s).2.failedEntry = s.failedEntry ∧
    (create_otp_for_user cfg now code s).2.lockoutEntry = s.lockoutEntry ∧
    (create_otp_for_user cfg now code s).2.resendEntry = none := by
  have h1 : create_otp_for_user cfg now code s = (Except.ok { otp := code, created_at := some (.valid now), is_used := false, resend_count := 0, last_resend_at := none, verified_at := none }, { s with otpEntry := some ⟨{ otp := code, created_at := some (.valid now), is_used := false, resend_count := 0, last_resend_at := none, verified_at := none }, now + cfg.expiry_minutes * 60⟩, resendEntry := none }) := by
    simp [create_otp_for_user, hL]
  exact ⟨h1, by rw [h1], by rw [h1], by rw [h1]⟩

/-- C10 witness: the frame theorem applied to a subject with two failed
attempts on record: the counter survives the fresh issuance. -/
theorem create_otp_frame_witness :
    create_otp_for_user cfgFixture 150 "314159" failedProgressFixture = (Except.ok { otp := "314159", created_at := some (.valid 150), is_used := false, resend_count := 0, last_resend_at := none, verified_at := none }, { failedProgressFixture with otpEntry := some ⟨{ otp := "314159", created_at := some (.valid 150), is_used := false, resend_count := 0, last_resend_at := none, verified_at := none }, 150 + cfgFixture.expiry_minutes * 60⟩, resendEntry := none }) ∧
    (create_otp_for_user cfgFixture 150 "314159" failedProgressFixture).2.failedEntry =
      failedProgressFixture.failedEntry ∧
    (create_otp_for_user cfgFixture 150 "314159" failedProgressFixture).2.lockoutEntry =
      failedProgressFixture.lockoutEntry ∧
    (create_otp_for_user cfgFixture 150 "314159" failedProgressFixture).2.resendEntry = none :=
  create_otp_frame cfgFixture 150 "314159" failedProgressFixture (by decide)

end AuthBk
